import Mathlib

/-!
Shallow embedding of the `tumblr` Go package (files `post.go` and
`tumblelog.go`) and proofs about it.

Modelling conventions:
- Go byte slices of JSON text are `List Char`.
- Go `(value, error)` multiple returns are `Option value × Option GoError`
  (a nil pointer / empty string result paired with the error), or
  `Except GoError value` where the Go API is effectively one-or-the-other.
- A Go runtime panic is modelled as an explicit `crash` outcome.
- `encoding/json`, the HTTP transport (`ClientInterface`, `Response`,
  `Response.PopulateFromBody`, `jsonStringify`) are external collaborators
  or code of the repository outside the provided sources; they are either
  taken as function parameters or modelled from the spec, as noted at each
  definition.
- Go `uint64` is `Nat`, Go `int`/`int64` is `Int`; no arithmetic is
  performed on them anywhere in the sources, so overflow never matters.
-/

/-- Go errors as produced by `errors.New` / `fmt.Sprintf`: a message string. -/
inductive GoError where
  | msg (s : String)
deriving DecidableEq, Repr, Inhabited

/-- A JSON value, the model of what `encoding/json` produces for an
`interface\x7b\x7d` target.  Numbers are modelled as integers since every
numeric field of this package is `int`, `int64` or `uint64`. -/
inductive JsonValue where
  | str (s : String)
  | num (n : Int)
  | bool (b : Bool)
  | null
  | arr (xs : List JsonValue)
  | obj (kvs : List (String × JsonValue))

/-- Lookup of a key in a decoded JSON object.  Go's object decoding
processes keys in order and later duplicates overwrite earlier ones, so
the LAST occurrence wins. -/
def jLookup (kvs : List (String × JsonValue)) (k : String) : Option JsonValue :=
  match kvs with
  | [] => none
  | (k', v) :: rest =>
    match jLookup rest k with
    | some w => some w
    | none => if k' == k then some v else none

/-- `fmt.Sprintf` restricted to the single `%s` placeholder the package
uses (the source comment on `blogPath` says: "Expects path to contain a
single %s placeholder"): the first `%s` is replaced by the argument, the
rest of the format is kept verbatim. -/
def sprintf1Chars (fmt : List Char) (arg : List Char) : List Char :=
  match fmt with
  | [] => []
  | '%' :: 's' :: rest => arg ++ rest
  | c :: rest => c :: sprintf1Chars rest arg

/-- String-level wrapper for `sprintf1Chars`. -/
def goSprintf1 (fmt : String) (arg : String) : String :=
  String.mk (sprintf1Chars fmt.data arg.data)

/-- `normalizeBlogName` from `tumblelog.go`: if the identifier contains no
`.`, append ".tumblr.com", otherwise use it verbatim.
`strings.Contains name "."` is modelled as membership of the character
`.` in the string's characters. -/
def normalizeBlogName (name : String) : String :=
  if name.data.contains '.' then name else name ++ ".tumblr.com"

/-- `blogPath` from `tumblelog.go`: substitute the normalized blog name
into the path template. -/
def blogPath (path : String) (name : String) : String :=
  goSprintf1 path (normalizeBlogName name)

/-- Substituting any argument into the `/blog/%s/info` template
concatenates the fixed prefix, the argument and the fixed suffix. -/
theorem goSprintf1_blog_info (a : String) :
    goSprintf1 "/blog/%s/info" a = "/blog/" ++ a ++ "/info" := by
  cases a
  rfl

/-- Dotted identifiers are used verbatim. -/
theorem normalizeBlogName_of_contains (name : String)
    (hc : name.data.contains '.' = true) : normalizeBlogName name = name := by
  unfold normalizeBlogName
  simp only [hc]
  simp

/-- Dot-free identifiers get the ".tumblr.com" suffix. -/
theorem normalizeBlogName_of_not_contains (name : String)
    (hc : name.data.contains '.' = false) :
    normalizeBlogName name = name ++ ".tumblr.com" := by
  unfold normalizeBlogName
  simp only [hc]
  simp

/-- C5: for every blog identifier, `blogPath` substitutes the normalized
identifier into the template; normalization appends ".tumblr.com" exactly
when the identifier contains no dot; in particular
`blogPath "/blog/%s/info" "foo" = "/blog/foo.tumblr.com/info"` and
`blogPath "/blog/%s/info" "foo.example.com" = "/blog/foo.example.com/info"`. -/
theorem blogPath_substitutes_normalized_name (name : String) :
    blogPath "/blog/%s/info" name = "/blog/" ++ normalizeBlogName name ++ "/info"
    ∧ (if name.data.contains '.' then normalizeBlogName name = name
       else normalizeBlogName name = name ++ ".tumblr.com")
    ∧ blogPath "/blog/%s/info" "foo" = "/blog/foo.tumblr.com/info"
    ∧ blogPath "/blog/%s/info" "foo.example.com" = "/blog/foo.example.com/info" := by
  refine ⟨goSprintf1_blog_info _, ?_, by decide, by decide⟩
  cases hc : name.data.contains '.' with
  | false =>
    simp [normalizeBlogName_of_not_contains name hc]
  | true =>
    simp [normalizeBlogName_of_contains name hc]

/-- The characters of a concatenation are the concatenations of the
characters. -/
theorem string_data_append (s t : String) : (s ++ t).data = s.data ++ t.data := by
  cases s; cases t; rfl

/-- A list that continues with ".tumblr.com" contains a dot. -/
theorem contains_dot_append_suffix (l : List Char) :
    (l ++ (".tumblr.com" : String).data).contains '.' = true := by
  induction l with
  | nil => decide
  | cons c l ih =>
    simp only [List.cons_append, List.contains_cons, ih, Bool.or_true]

/-- `NpfMedia` from `post.go`: a single media asset descriptor. -/
structure NpfMedia where
  Type' : String
  Url : String
  Width : Int
  Height : Int
deriving DecidableEq, Repr, Inhabited

/-- The Go zero value of `NpfMedia`. -/
def zeroNpfMedia : NpfMedia := ⟨"", "", 0, 0⟩

/-- `NpfMediaContainer` from `post.go`.  The Go `MediaCollection` field is
a nil-able slice, modelled as `Option (List NpfMedia)` with `none` for the
nil slice of the zero value. -/
structure NpfMediaContainer where
  Media : NpfMedia
  MediaCollection : Option (List NpfMedia)
  IsArray : Bool
deriving DecidableEq, Repr, Inhabited

/-- The Go zero value of `NpfMediaContainer`. -/
def zeroNpfMediaContainer : NpfMediaContainer := ⟨zeroNpfMedia, none, false⟩

/-- Outcome of a Go `UnmarshalJSON` call on a pointer receiver: the
receiver state on return paired with `nil` or an error, or a runtime
panic.  `err` carries the receiver state so that "leaves the entity
unmodified" is expressible. -/
inductive UnmarshalOutcome where
  | ok (n' : NpfMediaContainer)
  | err (n' : NpfMediaContainer) (e : GoError)
  | crash (msg : String)
deriving DecidableEq, Repr

/-- Whether an outcome is a successful decode. -/
def UnmarshalOutcome.isOk : UnmarshalOutcome → Bool
  | .ok _ => true
  | _ => false

/-- Whether an outcome is an ordinary returned error (a `DecodeError`),
as opposed to success or a crash. -/
def UnmarshalOutcome.isErr : UnmarshalOutcome → Bool
  | .err _ _ => true
  | _ => false

/-- `NpfMediaContainer.UnmarshalJSON` from `post.go`.  The two inner
`json.Unmarshal` calls into `NpfMedia` and `[]NpfMedia` are the standard
library's decoder, an external collaborator; they are taken as the
function parameters `unmarshalMedia` and `unmarshalMediaList` (a call of
either succeeding is what "valid media JSON" means for the corresponding
shape).  `data[0]` on an empty slice is a Go runtime panic, modelled by
`crash`. -/
def NpfMediaContainer.UnmarshalJSON
    (unmarshalMedia : List Char → Except GoError NpfMedia)
    (unmarshalMediaList : List Char → Except GoError (List NpfMedia))
    (n : NpfMediaContainer) (data : List Char) : UnmarshalOutcome :=
  match data with
  | [] => .crash "runtime error: index out of range [0] with length 0"
  | c :: _ =>
    if c = '[' then
      match unmarshalMediaList data with
      | .error e => .err n e
      | .ok mediaCollection =>
        .ok { n with MediaCollection := some mediaCollection, IsArray := true }
    else if c = '{' then
      match unmarshalMedia data with
      | .error e => .err n e
      | .ok media => .ok { n with Media := media, IsArray := false }
    else
      .err n (GoError.msg "unexpected char or whatever")

/-- C1: decoding a valid object-shaped media value into a zero container
sets `Media`, leaves `MediaCollection` nil and sets `IsArray := false`;
decoding a valid array-shaped value (the empty array included) sets
`MediaCollection`, leaves `Media` at its zero value and sets
`IsArray := true`. -/
theorem unmarshalJSON_object_and_array_shapes
    (uM : List Char → Except GoError NpfMedia)
    (uL : List Char → Except GoError (List NpfMedia))
    (data : List Char) :
    (∀ m, data.head? = some '{' → uM data = .ok m →
      NpfMediaContainer.UnmarshalJSON uM uL zeroNpfMediaContainer data =
        .ok ⟨m, none, false⟩)
    ∧ (∀ l, data.head? = some '[' → uL data = .ok l →
      NpfMediaContainer.UnmarshalJSON uM uL zeroNpfMediaContainer data =
        .ok ⟨zeroNpfMedia, some l, true⟩) := by
  constructor
  · intro m hhead hu
    cases data with
    | nil => simp at hhead
    | cons c rest =>
      simp only [List.head?_cons, Option.some.injEq] at hhead
      subst hhead
      simp [NpfMediaContainer.UnmarshalJSON, hu, zeroNpfMediaContainer]
  · intro l hhead hu
    cases data with
    | nil => simp at hhead
    | cons c rest =>
      simp only [List.head?_cons, Option.some.injEq] at hhead
      subst hhead
      simp [NpfMediaContainer.UnmarshalJSON, hu, zeroNpfMediaContainer]

/-- C1 witness: concrete decodes of an object, a non-empty array and the
empty array. -/
theorem unmarshalJSON_object_and_array_shapes_witness :
    (NpfMediaContainer.UnmarshalJSON
        (fun _ => .ok ⟨"image", "u", 1, 2⟩) (fun _ => .error (.msg "x"))
        zeroNpfMediaContainer "\x7btype:image\x7d".data =
      .ok ⟨⟨"image", "u", 1, 2⟩, none, false⟩)
    ∧ (NpfMediaContainer.UnmarshalJSON
        (fun _ => .error (.msg "x")) (fun _ => .ok [⟨"image", "u", 1, 2⟩])
        zeroNpfMediaContainer "[\x7b\x7d]".data =
      .ok ⟨zeroNpfMedia, some [⟨"image", "u", 1, 2⟩], true⟩)
    ∧ (NpfMediaContainer.UnmarshalJSON
        (fun _ => .error (.msg "x")) (fun _ => .ok [])
        zeroNpfMediaContainer "[]".data =
      .ok ⟨zeroNpfMedia, some [], true⟩) :=
  ⟨(unmarshalJSON_object_and_array_shapes _ _ _).1 _ (by decide) rfl,
   (unmarshalJSON_object_and_array_shapes _ _ _).2 _ (by decide) rfl,
   (unmarshalJSON_object_and_array_shapes _ _ _).2 _ (by decide) rfl⟩

/-- C2 amended: for every NON-empty input whose leading byte is neither
`\x7b` nor `[`, `UnmarshalJSON` returns the shape `DecodeError` and leaves the
container unmodified (the `err` outcome carries the untouched receiver). -/
theorem unmarshalJSON_bad_leading_byte
    (uM : List Char → Except GoError NpfMedia)
    (uL : List Char → Except GoError (List NpfMedia))
    (n : NpfMediaContainer) (c : Char) (rest : List Char)
    (h1 : c ≠ '[') (h2 : c ≠ '{') :
    NpfMediaContainer.UnmarshalJSON uM uL n (c :: rest) =
      .err n (GoError.msg "unexpected char or whatever") := by
  simp [NpfMediaContainer.UnmarshalJSON, h1, h2]

/-- C2 witness: the input `null` fails with the shape error and leaves the
zero container unchanged. -/
theorem unmarshalJSON_bad_leading_byte_witness :
    NpfMediaContainer.UnmarshalJSON
        (fun _ => .error (.msg "x")) (fun _ => .error (.msg "x"))
        zeroNpfMediaContainer ('n' :: "ull".data) =
      .err zeroNpfMediaContainer (GoError.msg "unexpected char or whatever") :=
  unmarshalJSON_bad_leading_byte _ _ _ _ _ (by decide) (by decide)

/-- C2 counterexample: on the EMPTY input the code does not return a
`DecodeError`; `data[0]` panics at runtime (index out of range). -/
theorem unmarshalJSON_empty_input_crashes :
    (NpfMediaContainer.UnmarshalJSON
        (fun _ => .error (.msg "x")) (fun _ => .error (.msg "x"))
        zeroNpfMediaContainer [] =
      .crash "runtime error: index out of range [0] with length 0")
    ∧ (NpfMediaContainer.UnmarshalJSON
        (fun _ => .error (.msg "x")) (fun _ => .error (.msg "x"))
        zeroNpfMediaContainer []).isErr = false := by
  constructor
  · rfl
  · rfl

/-- Spec's notion of the singular field being populated: it differs from
the Go zero value of `NpfMedia`. -/
def NpfMediaContainer.mediaPopulated (c : NpfMediaContainer) : Prop :=
  c.Media ≠ zeroNpfMedia

/-- Spec's notion of the collection field being populated: the slice is
non-nil (a decoded empty array counts as populated, per the spec's
"possibly zero-length"). -/
def NpfMediaContainer.collectionPopulated (c : NpfMediaContainer) : Prop :=
  c.MediaCollection.isSome = true

/-- The invariant exactly as the spec words it: exactly one of the two
fields is populated, and `IsArray` agrees with which one. -/
def specNpfMediaInvariant (c : NpfMediaContainer) : Prop :=
  (c.mediaPopulated ↔ ¬ c.collectionPopulated)
  ∧ (c.IsArray = true ↔ c.collectionPopulated)
  ∧ (c.IsArray = false ↔ c.mediaPopulated)

instance (c : NpfMediaContainer) : Decidable c.mediaPopulated := by
  unfold NpfMediaContainer.mediaPopulated; infer_instance

instance (c : NpfMediaContainer) : Decidable c.collectionPopulated := by
  unfold NpfMediaContainer.collectionPopulated; infer_instance

instance (c : NpfMediaContainer) : Decidable (specNpfMediaInvariant c) := by
  unfold specNpfMediaInvariant; infer_instance

/-- C3 amended: after any successful decode from the zero container, the
`IsArray` flag is true exactly when `MediaCollection` is non-nil; when it
is true `Media` is still the zero value, and when it is false
`MediaCollection` is still nil.  (The stronger value-level reading
"exactly one field is populated" fails: decoding `\x7b\x7d` leaves `Media`
equal to its zero value with `IsArray = false`.) -/
theorem unmarshalJSON_flag_agrees_with_assigned_field
    (uM : List Char → Except GoError NpfMedia)
    (uL : List Char → Except GoError (List NpfMedia))
    (data : List Char) (n' : NpfMediaContainer)
    (h : NpfMediaContainer.UnmarshalJSON uM uL zeroNpfMediaContainer data =
      .ok n') :
    (n'.IsArray = true ↔ n'.collectionPopulated)
    ∧ (n'.IsArray = true → n'.Media = zeroNpfMedia)
    ∧ (n'.IsArray = false → n'.MediaCollection = none) := by
  cases data with
  | nil => simp [NpfMediaContainer.UnmarshalJSON] at h
  | cons c rest =>
    by_cases hb : c = '['
    · subst hb
      cases hl : uL ('[' :: rest) with
      | error e => simp [NpfMediaContainer.UnmarshalJSON, hl] at h
      | ok l =>
        simp [NpfMediaContainer.UnmarshalJSON, hl] at h
        subst h
        simp [NpfMediaContainer.collectionPopulated, zeroNpfMediaContainer]
    · by_cases hb2 : c = '{'
      · subst hb2
        cases hm : uM ('{' :: rest) with
        | error e => simp [NpfMediaContainer.UnmarshalJSON, hb, hm] at h
        | ok m =>
          simp [NpfMediaContainer.UnmarshalJSON, hb, hm] at h
          subst h
          simp [NpfMediaContainer.collectionPopulated, zeroNpfMediaContainer]
      · simp [NpfMediaContainer.UnmarshalJSON, hb, hb2] at h

/-- C3 witness: flag agreement evaluated on a concrete array decode. -/
theorem unmarshalJSON_flag_agrees_with_assigned_field_witness :
    ((⟨zeroNpfMedia, some [⟨"image", "u", 1, 2⟩], true⟩ :
        NpfMediaContainer).IsArray = true ↔
      (⟨zeroNpfMedia, some [⟨"image", "u", 1, 2⟩], true⟩ :
        NpfMediaContainer).collectionPopulated)
    ∧ ((⟨zeroNpfMedia, some [⟨"image", "u", 1, 2⟩], true⟩ :
        NpfMediaContainer).IsArray = true →
      (⟨zeroNpfMedia, some [⟨"image", "u", 1, 2⟩], true⟩ :
        NpfMediaContainer).Media = zeroNpfMedia)
    ∧ ((⟨zeroNpfMedia, some [⟨"image", "u", 1, 2⟩], true⟩ :
        NpfMediaContainer).IsArray = false →
      (⟨zeroNpfMedia, some [⟨"image", "u", 1, 2⟩], true⟩ :
        NpfMediaContainer).MediaCollection = none) :=
  unmarshalJSON_flag_agrees_with_assigned_field
    (fun _ => .error (.msg "x")) (fun _ => .ok [⟨"image", "u", 1, 2⟩])
    "[]".data _ rfl

/-- C3 counterexample: decoding the empty object `\x7b\x7d` succeeds but the
resulting container has `Media` equal to the zero value, a nil collection
and `IsArray = false`, so the spec's "exactly one of the two fields is
populated, discriminated by the flag" is violated. -/
theorem specNpfMediaInvariant_fails_on_empty_object :
    (NpfMediaContainer.UnmarshalJSON
        (fun _ => .ok zeroNpfMedia) (fun _ => .error (.msg "x"))
        zeroNpfMediaContainer "\x7b\x7d".data =
      .ok ⟨zeroNpfMedia, none, false⟩)
    ∧ ¬ specNpfMediaInvariant ⟨zeroNpfMedia, none, false⟩ := by
  constructor
  · rfl
  · decide

/-- C4 amended: the decoder dispatches on the FIRST byte of the raw value
without skipping whitespace: a leading space always takes the error
branch (even when `[` or `\x7b` follows), while an input whose first byte is
`\x7b` or `[` is dispatched to the corresponding decode. -/
theorem unmarshalJSON_first_byte_dispatch
    (uM : List Char → Except GoError NpfMedia)
    (uL : List Char → Except GoError (List NpfMedia))
    (n : NpfMediaContainer) (rest : List Char) :
    (NpfMediaContainer.UnmarshalJSON uM uL n (' ' :: rest) =
      .err n (GoError.msg "unexpected char or whatever"))
    ∧ (∀ m, uM ('{' :: rest) = .ok m →
      NpfMediaContainer.UnmarshalJSON uM uL n ('{' :: rest) =
        .ok { n with Media := m, IsArray := false })
    ∧ (∀ l, uL ('[' :: rest) = .ok l →
      NpfMediaContainer.UnmarshalJSON uM uL n ('[' :: rest) =
        .ok { n with MediaCollection := some l, IsArray := true }) := by
  refine ⟨by simp [NpfMediaContainer.UnmarshalJSON], ?_, ?_⟩
  · intro m hm
    simp [NpfMediaContainer.UnmarshalJSON, hm]
  · intro l hl
    simp [NpfMediaContainer.UnmarshalJSON, hl]

/-- C4 witness: concrete whitespace-prefixed and brace-led inputs. -/
theorem unmarshalJSON_first_byte_dispatch_witness :
    (NpfMediaContainer.UnmarshalJSON
        (fun _ => .ok ⟨"image", "u", 1, 2⟩) (fun _ => .ok [])
        zeroNpfMediaContainer (' ' :: "[]".data) =
      .err zeroNpfMediaContainer (GoError.msg "unexpected char or whatever"))
    ∧ NpfMediaContainer.UnmarshalJSON
        (fun _ => .ok ⟨"image", "u", 1, 2⟩) (fun _ => .ok [])
        zeroNpfMediaContainer ('{' :: "[]".data) =
      .ok { zeroNpfMediaContainer with
              Media := ⟨"image", "u", 1, 2⟩, IsArray := false } :=
  ⟨(unmarshalJSON_first_byte_dispatch _ _ _ _).1,
   (unmarshalJSON_first_byte_dispatch _ _ _ _).2.1 _ rfl⟩

/-- C4 counterexample: under an array decoder accepting ` []` (as the
standard library's does, skipping whitespace), the container decoder
still rejects ` []`: it inspects the first byte, not the first
non-whitespace byte. -/
theorem unmarshalJSON_does_not_skip_whitespace :
    (NpfMediaContainer.UnmarshalJSON
        (fun _ => .error (.msg "x")) (fun _ => .ok [])
        zeroNpfMediaContainer (' ' :: '[' :: ']' :: []) =
      .err zeroNpfMediaContainer (GoError.msg "unexpected char or whatever"))
    ∧ (NpfMediaContainer.UnmarshalJSON
        (fun _ => .error (.msg "x")) (fun _ => .ok [])
        zeroNpfMediaContainer (' ' :: '[' :: ']' :: [])).isOk = false := by
  constructor
  · rfl
  · rfl

/-- C10: `normalizeBlogName` is idempotent: the appended suffix itself
contains a `.`, so a second application never appends again. -/
theorem normalizeBlogName_idempotent (s : String) :
    normalizeBlogName (normalizeBlogName s) = normalizeBlogName s := by
  cases hc : s.data.contains '.' with
  | true =>
    have h1 := normalizeBlogName_of_contains s hc
    rw [h1, h1]
  | false =>
    have h1 := normalizeBlogName_of_not_contains s hc
    have h2 : (s ++ ".tumblr.com").data.contains '.' = true := by
      rw [string_data_append]
      exact contains_dot_append_suffix s.data
    rw [h1, normalizeBlogName_of_contains _ h2]

/-- `Response`, modelled from the spec: the transport's response "exposes
a byte body and a header map" (§6); `PopulateFromBody` and the `Result`
map live outside the provided sources, so body parsing is taken as a
function parameter where needed. -/
structure Response where
  Headers : List (String × String)
  body : List Char

/-- `http.Header.Get`: the first value for the key, or "" when absent. -/
def headerGet (hs : List (String × String)) (k : String) : String :=
  match hs.find? (fun p => p.1 == k) with
  | some p => p.2
  | none => ""

/-- Go `url.Values`. -/
abbrev Params : Type := List (String × List String)

/-- `ClientInterface`, modelled from the spec: the injected client
capability supplies `Get(path)` and `GetWithParams(path, params)`,
returning a response or a transport error (§2, §6). -/
structure ClientInterface where
  Get : String → Except GoError Response
  GetWithParams : String → Params → Except GoError Response

/-- `MiniPost` from `post.go` (`Type` is `Type'` since `Type` is a Lean
keyword). -/
structure MiniPost where
  Id : Nat
  Type' : String
  BlogName : String
  ReblogKey : String
deriving Inhabited

/-- `PostRef` from `post.go`: the embedded `MiniPost` plus the client
capability back-reference (nil-able, hence `Option`). -/
structure PostRef where
  toMiniPost : MiniPost
  client : Option ClientInterface

instance : Inhabited PostRef := ⟨⟨default, none⟩⟩

/-- `Note` from `post.go`. -/
structure Note where
  Type' : String
  Timestamp : Nat
  BlogName : String
  BlogUUID : String
  BlogUrl : String
  Followed : Bool
  AvatarShape : String
  ReplyText : String
  PostID : String
  ReblogParentBlogName : String
deriving Inhabited

/-- `BlogMiniInfo` from `post.go`. -/
structure BlogMiniInfo where
  Name : String
  Title : String
  Description : String
  Url : String
  Updated : Nat
  UUID : String
deriving Inhabited

/-- `Formatting` from `post.go`. -/
structure Formatting where
  Type' : String
  Url : String
  Blog : BlogMiniInfo
deriving Inhabited

/-- `NpfLink` from `post.go`. -/
structure NpfLink where
  Url : String
  DisplayUrl : String
  Title : String
  Description : String
  Author : String
  SiteName : String
deriving Inhabited

/-- `NpfContent` from `post.go`: one content block, with the embedded
`NpfLink` kept as a nested field. -/
structure NpfContent where
  Type' : String
  Subtype : String
  Text : String
  Formatting : List Formatting
  Media : NpfMediaContainer
  AltText : String
  toNpfLink : NpfLink
  Poster : NpfMediaContainer
deriving Inhabited

/-- `TrailPost` from `post.go`. -/
structure TrailPost where
  Id : String
deriving Inhabited

/-- `BrokenBlog` from `post.go`. -/
structure BrokenBlog where
  Name : String
deriving Inhabited

/-- `NpfTrail` from `post.go`. -/
structure NpfTrail where
  Post : TrailPost
  Blog : BlogMiniInfo
  Content : List NpfContent
  BrokenBlog : BrokenBlog
deriving Inhabited

/-- The anonymous `Reblog` struct nested in `Post`. -/
structure ReblogInfo where
  Comment : String
  TreeHTML : String
deriving Inhabited

/-- `Post` from `post.go`: the embedded `PostRef` kept as a nested field,
every other field as declared.  `Highlighted []interface\x7b\x7d` is a list of
arbitrary decoded JSON values. -/
structure Post where
  toPostRef : PostRef
  Body : String
  CanLike : Bool
  CanReblog : Bool
  CanReply : Bool
  CanSendInMessage : Bool
  Caption : String
  Date : String
  DisplayAvatar : Bool
  Followed : Bool
  Format : String
  Highlighted : List JsonValue
  Liked : Bool
  NoteCount : Nat
  PermalinkUrl : String
  PostUrl : String
  Reblog : ReblogInfo
  Notes : List Note
  RecommendedColor : String
  RecommendedSource : Bool
  ShortUrl : String
  Slug : String
  SourceTitle : String
  SourceUrl : String
  State : String
  Summary : String
  Tags : List String
  Timestamp : Nat
  FeaturedTimestamp : Nat
  TrackName : String
  Content : List NpfContent
  Trail : List NpfTrail
deriving Inhabited

/-- `Posts` from `post.go`: the decoded list plus the unexported client
and response references attached after a successful query. -/
structure Posts where
  client : Option ClientInterface
  response : Option Response
  Posts : List Post
  TotalPosts : Int

/-- `Blog` from `tumblelog.go`, with the embedded `BlogRef` flattened to
its `client` back-reference and `Name`. -/
structure Blog where
  client : Option ClientInterface
  Name : String
  Url : String
  Title : String
  Posts : Int
  Ask : Bool
  AskAnon : Bool
  AskAnonPageTitle : String
  CanSendFanMail : Bool
  CanSubmit : Bool
  CanSubscribe : Bool
  Description : String
  Followed : Bool
  IsBlockedFromPrimary : Bool
  IsNSFW : Bool
  ShareLikes : Bool
  SubmissionPageTitle : String
  Subscribed : Bool
  TotalPosts : Int
  Updated : Int
  UUID : String

/-- `queryPosts` from `post.go`: one `GetWithParams` call, then the
envelope decode (the `json.Unmarshal` into the anonymous
`\x7bResponse Posts\x7d` wrapper is stdlib, taken as the parameter
`unmarshalPostsEnv` returning the wrapped `Posts`), attaching the
response and client on success.  Returns the Go pair
`(*Posts, error)` as `Option Posts × Option GoError`. -/
def queryPosts (unmarshalPostsEnv : List Char → Except GoError Posts)
    (client : ClientInterface) (path name : String) (params : Params) :
    Option Posts × Option GoError :=
  match client.GetWithParams (blogPath path name) params with
  | .error err => (none, some err)
  | .ok response =>
    match unmarshalPostsEnv response.body with
    | .ok posts =>
      (some { posts with response := some response, client := some client },
       none)
    | .error err => (none, some err)

/-- `GetPosts` from `post.go`. -/
def GetPosts (unmarshalPostsEnv : List Char → Except GoError Posts)
    (client : ClientInterface) (name : String) (params : Params) :
    Option Posts × Option GoError :=
  queryPosts unmarshalPostsEnv client "/blog/%s/posts" name params

/-- `GetBlogInfo` from `tumblelog.go`: one `Get` call, then the envelope
decode (`json.Unmarshal` into the anonymous `response.blog` wrapper is
stdlib, taken as the parameter `unmarshalBlogEnv` returning the wrapped
`Blog`), attaching the client on success. -/
def GetBlogInfo (unmarshalBlogEnv : List Char → Except GoError Blog)
    (client : ClientInterface) (name : String) :
    Option Blog × Option GoError :=
  match client.Get (blogPath "/blog/%s/info" name) with
  | .error err => (none, some err)
  | .ok response =>
    match unmarshalBlogEnv response.body with
    | .error err => (none, some err)
    | .ok blog => (some { blog with client := some client }, none)

/-- The error `GetAvatar` returns when neither source yields a location. -/
def avatarNotFoundError : GoError := .msg "Unable to detect avatar location"

/-- `GetAvatar` from `tumblelog.go`: one `Get` call; if the `Location`
header is non-empty return it; otherwise parse the body
(`Response.PopulateFromBody` is outside the provided sources, modelled
from the spec as the parameter `populate` producing the `Result` map of
JSON values or a decode error) and return the body's "location" entry
when it is a string; otherwise fail with `avatarNotFoundError`.  Returns
the Go pair `(string, error)` with "" on failure. -/
def GetAvatar
    (populate : List Char → Except GoError (List (String × JsonValue)))
    (client : ClientInterface) (name : String) : String × Option GoError :=
  match client.Get (blogPath "/blog/%s/avatar" name) with
  | .error err => ("", some err)
  | .ok response =>
    let location := headerGet response.Headers "Location"
    if 0 < location.length then (location, none)
    else
      match populate response.body with
      | .error e => ("", some e)
      | .ok result =>
        match result.find? (fun p => p.1 == "location") with
        | some (_, JsonValue.str s) => (s, none)
        | _ => ("", some avatarNotFoundError)

/-- The "location" entry of the parsed avatar body, when present with a
string value (the shape `GetAvatar` accepts from the body). -/
def resultLocationString (r : List (String × JsonValue)) : Option String :=
  match r.find? (fun p => p.1 == "location") with
  | some (_, JsonValue.str s) => some s
  | _ => none

/-- A non-empty string has positive length. -/
theorem length_pos_of_ne_empty (s : String) (h : s ≠ "") : 0 < s.length := by
  cases s with
  | mk l =>
    cases l with
    | nil => exact absurd rfl h
    | cons c cs => simp [String.length]

/-- C6 amended: a complete case split of `GetAvatar` after a successful
request: a non-empty `Location` header is returned as-is, for every body
parser (so the body is never consulted); with the header absent, a body
that parses and holds a string "location" entry yields that string, a
body that parses without one yields the avatar-not-found error, and a
body parse failure propagates the parse error (NOT the avatar-not-found
error). -/
theorem getAvatar_location_header_precedence
    (populate : List Char → Except GoError (List (String × JsonValue)))
    (client : ClientInterface) (name : String) (resp : Response)
    (hresp : client.Get (blogPath "/blog/%s/avatar" name) = .ok resp) :
    (headerGet resp.Headers "Location" ≠ "" →
      GetAvatar populate client name = (headerGet resp.Headers "Location", none))
    ∧ (headerGet resp.Headers "Location" = "" →
      (∀ r s, populate resp.body = .ok r → resultLocationString r = some s →
        GetAvatar populate client name = (s, none))
      ∧ (∀ r, populate resp.body = .ok r → resultLocationString r = none →
        GetAvatar populate client name = ("", some avatarNotFoundError))
      ∧ (∀ e, populate resp.body = .error e →
        GetAvatar populate client name = ("", some e))) := by
  constructor
  · intro hloc
    have hlen : 0 < (headerGet resp.Headers "Location").length :=
      length_pos_of_ne_empty _ hloc
    simp [GetAvatar, hresp, hlen]
  · intro hloc
    have hlen : ¬ 0 < (headerGet resp.Headers "Location").length := by
      rw [hloc]; decide
    refine ⟨?_, ?_, ?_⟩
    · intro r s hr hs
      unfold resultLocationString at hs
      simp only [GetAvatar, hresp, hlen, if_false, hr]
      cases hf : r.find? (fun p => p.1 == "location") with
      | none => rw [hf] at hs; simp at hs
      | some p =>
        rw [hf] at hs
        obtain ⟨k, v⟩ := p
        cases v with
        | str s' => simp at hs; subst hs; simp
        | num n => simp at hs
        | bool b => simp at hs
        | null => simp at hs
        | arr xs => simp at hs
        | obj kvs => simp at hs
    · intro r hr hs
      unfold resultLocationString at hs
      simp only [GetAvatar, hresp, hlen, if_false, hr]
      cases hf : r.find? (fun p => p.1 == "location") with
      | none => simp
      | some p =>
        rw [hf] at hs
        obtain ⟨k, v⟩ := p
        cases v with
        | str s' => simp at hs
        | num n => simp
        | bool b => simp
        | null => simp
        | arr xs => simp
        | obj kvs => simp
    · intro e he
      simp [GetAvatar, hresp, hlen, he]

/-- C6 witness: concrete mocked transports exercising all four cases:
header present (body parser would fail, yet is never consulted), body
with a string location, body without one, and failing body parse. -/
theorem getAvatar_location_header_precedence_witness :
    (GetAvatar (fun _ => .error (.msg "never parsed"))
        ⟨fun _ => .ok ⟨[("Location", "https://x/y.png")], []⟩,
         fun _ _ => .error (.msg "unused")⟩ "b" =
      ("https://x/y.png", none))
    ∧ (GetAvatar (fun _ => .ok [("location", .str "https://a/b.png")])
        ⟨fun _ => .ok ⟨[], "body".data⟩,
         fun _ _ => .error (.msg "unused")⟩ "b" =
      ("https://a/b.png", none))
    ∧ (GetAvatar (fun _ => .ok [("other", .num 1)])
        ⟨fun _ => .ok ⟨[], "body".data⟩,
         fun _ _ => .error (.msg "unused")⟩ "b" =
      ("", some avatarNotFoundError))
    ∧ (GetAvatar (fun _ => .error (.msg "invalid character"))
        ⟨fun _ => .ok ⟨[], "body".data⟩,
         fun _ _ => .error (.msg "unused")⟩ "b" =
      ("", some (.msg "invalid character"))) :=
  ⟨(getAvatar_location_header_precedence _ _ "b"
      ⟨[("Location", "https://x/y.png")], []⟩ rfl).1 (by decide),
   ((getAvatar_location_header_precedence _ _ "b"
      ⟨[], "body".data⟩ rfl).2 rfl).1 _ _ rfl rfl,
   ((getAvatar_location_header_precedence _ _ "b"
      ⟨[], "body".data⟩ rfl).2 rfl).2.1 _ rfl rfl,
   ((getAvatar_location_header_precedence _ _ "b"
      ⟨[], "body".data⟩ rfl).2 rfl).2.2 _ rfl⟩

/-- C6 counterexample: with the `Location` header absent and a body that
does not parse, neither source yields a location string, yet `GetAvatar`
fails with the propagated parse error, not the avatar-not-found error. -/
theorem getAvatar_parse_failure_is_not_avatar_not_found :
    (GetAvatar (fun _ => .error (.msg "invalid character x"))
        ⟨fun _ => .ok ⟨[], "not json".data⟩,
         fun _ _ => .error (.msg "unused")⟩ "b" =
      ("", some (.msg "invalid character x")))
    ∧ GoError.msg "invalid character x" ≠ avatarNotFoundError := by
  exact ⟨rfl, by decide⟩

/-- C7: every query helper is a single request followed by a single
decode: a transport error is returned unchanged with a nil (or empty)
result; a decode error is returned unchanged with a nil (or empty)
result; on success `GetPosts` and `GetBlogInfo` return the decoded entity
with the client capability reference (and, for `GetPosts`, the raw
response) attached. -/
theorem queryHelpers_propagate_errors_unchanged
    (uP : List Char → Except GoError Posts)
    (uB : List Char → Except GoError Blog)
    (populate : List Char → Except GoError (List (String × JsonValue)))
    (client : ClientInterface) (name : String) (params : Params) :
    (∀ e, client.GetWithParams (blogPath "/blog/%s/posts" name) params = .error e →
      GetPosts uP client name params = (none, some e))
    ∧ (∀ resp e, client.GetWithParams (blogPath "/blog/%s/posts" name) params = .ok resp →
      uP resp.body = .error e →
      GetPosts uP client name params = (none, some e))
    ∧ (∀ resp posts, client.GetWithParams (blogPath "/blog/%s/posts" name) params = .ok resp →
      uP resp.body = .ok posts →
      GetPosts uP client name params =
        (some { posts with response := some resp, client := some client }, none))
    ∧ (∀ e, client.Get (blogPath "/blog/%s/info" name) = .error e →
      GetBlogInfo uB client name = (none, some e))
    ∧ (∀ resp e, client.Get (blogPath "/blog/%s/info" name) = .ok resp →
      uB resp.body = .error e →
      GetBlogInfo uB client name = (none, some e))
    ∧ (∀ resp blog, client.Get (blogPath "/blog/%s/info" name) = .ok resp →
      uB resp.body = .ok blog →
      GetBlogInfo uB client name = (some { blog with client := some client }, none))
    ∧ (∀ e, client.Get (blogPath "/blog/%s/avatar" name) = .error e →
      GetAvatar populate client name = ("", some e))
    ∧ (∀ resp e, client.Get (blogPath "/blog/%s/avatar" name) = .ok resp →
      headerGet resp.Headers "Location" = "" →
      populate resp.body = .error e →
      GetAvatar populate client name = ("", some e)) := by
  refine ⟨?_, ?_, ?_, ?_, ?_, ?_, ?_, ?_⟩
  · intro e he
    simp [GetPosts, queryPosts, he]
  · intro resp e hresp hu
    simp [GetPosts, queryPosts, hresp, hu]
  · intro resp posts hresp hu
    simp [GetPosts, queryPosts, hresp, hu]
  · intro e he
    simp [GetBlogInfo, he]
  · intro resp e hresp hu
    simp [GetBlogInfo, hresp, hu]
  · intro resp blog hresp hu
    simp [GetBlogInfo, hresp, hu]
  · intro e he
    simp [GetAvatar, he]
  · intro resp e hresp hloc hu
    have hlen : ¬ 0 < (headerGet resp.Headers "Location").length := by
      rw [hloc]; decide
    simp [GetAvatar, hresp, hlen, hu]

/-- C7 witness: a failing mocked transport propagates its error through
each helper; a succeeding transport and decode yield the entity with the
client and response attached. -/
theorem queryHelpers_propagate_errors_unchanged_witness :
    (GetPosts (fun _ => .ok ⟨none, none, [], 0⟩)
        ⟨fun _ => .error (.msg "dial tcp: refused"),
         fun _ _ => .error (.msg "dial tcp: refused")⟩ "foo" [] =
      (none, some (.msg "dial tcp: refused")))
    ∧ (GetPosts (fun _ => .ok ⟨none, none, [], 7⟩)
        ⟨fun _ => .error (.msg "unused"),
         fun _ _ => .ok ⟨[], "posts body".data⟩⟩ "foo" [] =
      (some ⟨some ⟨fun _ => .error (.msg "unused"),
                   fun _ _ => .ok ⟨[], "posts body".data⟩⟩,
             some ⟨[], "posts body".data⟩, [], 7⟩, none))
    ∧ (GetBlogInfo (fun _ => .error (.msg "unexpected end of JSON input"))
        ⟨fun _ => .ok ⟨[], "bad".data⟩,
         fun _ _ => .error (.msg "unused")⟩ "foo" =
      (none, some (.msg "unexpected end of JSON input")))
    ∧ (GetAvatar (fun _ => .ok [])
        ⟨fun _ => .error (.msg "dial tcp: refused"),
         fun _ _ => .error (.msg "unused")⟩ "foo" =
      ("", some (.msg "dial tcp: refused"))) :=
  ⟨(queryHelpers_propagate_errors_unchanged _ (fun _ => .error (.msg "x"))
      (fun _ => .ok []) _ "foo" []).1 _ rfl,
   (queryHelpers_propagate_errors_unchanged _ (fun _ => .error (.msg "x"))
      (fun _ => .ok []) _ "foo" []).2.2.1 _ _ rfl rfl,
   (queryHelpers_propagate_errors_unchanged (fun _ => .ok ⟨none, none, [], 0⟩) _
      (fun _ => .ok []) _ "foo" []).2.2.2.2.1 _ _ rfl rfl,
   (queryHelpers_propagate_errors_unchanged (fun _ => .ok ⟨none, none, [], 0⟩)
      (fun _ => .error (.msg "x")) _ _ "foo" []).2.2.2.2.2.2.1 _ rfl⟩

/-- Decode a string-typed struct field from a JSON object, as
`encoding/json` does: a missing key or JSON `null` leaves the zero value,
a string is taken, any other shape is a type error. -/
def getString (kvs : List (String × JsonValue)) (k : String) :
    Except GoError String :=
  match jLookup kvs k with
  | none => .ok ""
  | some JsonValue.null => .ok ""
  | some (JsonValue.str s) => .ok s
  | some _ => .error (.msg ("json: cannot unmarshal into string field " ++ k))

/-- Decode an `int64`-typed struct field, as `encoding/json` does. -/
def getInt (kvs : List (String × JsonValue)) (k : String) :
    Except GoError Int :=
  match jLookup kvs k with
  | none => .ok 0
  | some JsonValue.null => .ok 0
  | some (JsonValue.num n) => .ok n
  | some _ => .error (.msg ("json: cannot unmarshal into int64 field " ++ k))

/-- Decode a `bool`-typed struct field, as `encoding/json` does. -/
def getBool (kvs : List (String × JsonValue)) (k : String) :
    Except GoError Bool :=
  match jLookup kvs k with
  | none => .ok false
  | some JsonValue.null => .ok false
  | some (JsonValue.bool b) => .ok b
  | some _ => .error (.msg ("json: cannot unmarshal into bool field " ++ k))

/-- `json.Unmarshal` of a JSON object into `Blog`, field by field
following the struct tags of `tumblelog.go` (the embedded `BlogRef`
contributes `name`; the unexported `client` is never decoded). -/
def decodeBlog (kvs : List (String × JsonValue)) : Except GoError Blog := do
  let name ← getString kvs "name"
  let url ← getString kvs "url"
  let title ← getString kvs "title"
  let posts ← getInt kvs "posts"
  let ask ← getBool kvs "ask"
  let askAnon ← getBool kvs "ask_anon"
  let askPageTitle ← getString kvs "ask_page_title"
  let canSendFanMail ← getBool kvs "can_send_fan_mail"
  let canSubmit ← getBool kvs "can_submit"
  let canSubscribe ← getBool kvs "can_subscribe"
  let description ← getString kvs "description"
  let followed ← getBool kvs "followed"
  let isBlockedFromPrimary ← getBool kvs "is_blocked_from_primary"
  let isNSFW ← getBool kvs "is_nsfw"
  let shareLikes ← getBool kvs "share_likes"
  let submissionPageTitle ← getString kvs "submission_page_title"
  let subscribed ← getBool kvs "subscribed"
  let totalPosts ← getInt kvs "total_posts"
  let updated ← getInt kvs "updated"
  let uuid ← getString kvs "uuid"
  return { client := none, Name := name, Url := url, Title := title,
           Posts := posts, Ask := ask, AskAnon := askAnon,
           AskAnonPageTitle := askPageTitle,
           CanSendFanMail := canSendFanMail, CanSubmit := canSubmit,
           CanSubscribe := canSubscribe, Description := description,
           Followed := followed,
           IsBlockedFromPrimary := isBlockedFromPrimary, IsNSFW := isNSFW,
           ShareLikes := shareLikes,
           SubmissionPageTitle := submissionPageTitle,
           Subscribed := subscribed, TotalPosts := totalPosts,
           Updated := updated, UUID := uuid }

/-- `json.Marshal` of a `Blog`, the JSON object produced by the
`jsonStringify`-based `Blog.String` method, modelled from the spec
("re-encodes the entity back to JSON"): every tagged exported field is
emitted (none carries `omitempty`), the unexported `client` is skipped. -/
def encodeBlog (b : Blog) : List (String × JsonValue) :=
  [("name", .str b.Name), ("url", .str b.Url), ("title", .str b.Title),
   ("posts", .num b.Posts), ("ask", .bool b.Ask),
   ("ask_anon", .bool b.AskAnon), ("ask_page_title", .str b.AskAnonPageTitle),
   ("can_send_fan_mail", .bool b.CanSendFanMail),
   ("can_submit", .bool b.CanSubmit), ("can_subscribe", .bool b.CanSubscribe),
   ("description", .str b.Description), ("followed", .bool b.Followed),
   ("is_blocked_from_primary", .bool b.IsBlockedFromPrimary),
   ("is_nsfw", .bool b.IsNSFW), ("share_likes", .bool b.ShareLikes),
   ("submission_page_title", .str b.SubmissionPageTitle),
   ("subscribed", .bool b.Subscribed), ("total_posts", .num b.TotalPosts),
   ("updated", .num b.Updated), ("uuid", .str b.UUID)]

/-- Inversion for a successful `Except` bind. -/
theorem bind_ok_elim {α β : Type} {x : Except GoError α}
    {f : α → Except GoError β} {b : β}
    (h : (x >>= f) = .ok b) : ∃ a, x = .ok a ∧ f a = .ok b := by
  cases x with
  | error e => simp [Bind.bind, Except.bind] at h
  | ok a => exact ⟨a, rfl, by simpa [Bind.bind, Except.bind] using h⟩

/-- A non-null value present under a key a string field was successfully
decoded from is exactly that decoded string. -/
theorem getString_reproduces {kvs : List (String × JsonValue)} {k : String}
    {s : String} (hg : getString kvs k = .ok s) :
    ∀ v, jLookup kvs k = some v → v ≠ JsonValue.null → v = JsonValue.str s := by
  intro v hv hnull
  unfold getString at hg
  rw [hv] at hg
  cases v with
  | str t => simp at hg; rw [hg]
  | null => exact absurd rfl hnull
  | num n => simp at hg
  | bool c => simp at hg
  | arr xs => simp at hg
  | obj o => simp at hg

/-- A non-null value present under a key an `int64` field was
successfully decoded from is exactly that decoded number. -/
theorem getInt_reproduces {kvs : List (String × JsonValue)} {k : String}
    {n : Int} (hg : getInt kvs k = .ok n) :
    ∀ v, jLookup kvs k = some v → v ≠ JsonValue.null → v = JsonValue.num n := by
  intro v hv hnull
  unfold getInt at hg
  rw [hv] at hg
  cases v with
  | str t => simp at hg
  | null => exact absurd rfl hnull
  | num m => simp at hg; rw [hg]
  | bool c => simp at hg
  | arr xs => simp at hg
  | obj o => simp at hg

/-- A non-null value present under a key a `bool` field was successfully
decoded from is exactly that decoded boolean. -/
theorem getBool_reproduces {kvs : List (String × JsonValue)} {k : String}
    {c : Bool} (hg : getBool kvs k = .ok c) :
    ∀ v, jLookup kvs k = some v → v ≠ JsonValue.null → v = JsonValue.bool c := by
  intro v hv hnull
  unfold getBool at hg
  rw [hv] at hg
  cases v with
  | str t => simp at hg
  | null => exact absurd rfl hnull
  | num m => simp at hg
  | bool d => simp at hg; rw [hg]
  | arr xs => simp at hg
  | obj o => simp at hg

/-- C8: for every `Blog` decoded from a valid blog object, re-encoding it
via the JSON stringify method reproduces every originally-populated
(present and non-null) field value exactly, for each of the twenty
tagged fields. -/
theorem blog_decode_encode_roundtrip (kvs : List (String × JsonValue))
    (b : Blog) (h : decodeBlog kvs = .ok b) :
    (∀ v, jLookup kvs "name" = some v → v ≠ JsonValue.null →
      jLookup (encodeBlog b) "name" = some v)
    ∧ (∀ v, jLookup kvs "url" = some v → v ≠ JsonValue.null →
      jLookup (encodeBlog b) "url" = some v)
    ∧ (∀ v, jLookup kvs "title" = some v → v ≠ JsonValue.null →
      jLookup (encodeBlog b) "title" = some v)
    ∧ (∀ v, jLookup kvs "posts" = some v → v ≠ JsonValue.null →
      jLookup (encodeBlog b) "posts" = some v)
    ∧ (∀ v, jLookup kvs "ask" = some v → v ≠ JsonValue.null →
      jLookup (encodeBlog b) "ask" = some v)
    ∧ (∀ v, jLookup kvs "ask_anon" = some v → v ≠ JsonValue.null →
      jLookup (encodeBlog b) "ask_anon" = some v)
    ∧ (∀ v, jLookup kvs "ask_page_title" = some v → v ≠ JsonValue.null →
      jLookup (encodeBlog b) "ask_page_title" = some v)
    ∧ (∀ v, jLookup kvs "can_send_fan_mail" = some v → v ≠ JsonValue.null →
      jLookup (encodeBlog b) "can_send_fan_mail" = some v)
    ∧ (∀ v, jLookup kvs "can_submit" = some v → v ≠ JsonValue.null →
      jLookup (encodeBlog b) "can_submit" = some v)
    ∧ (∀ v, jLookup kvs "can_subscribe" = some v → v ≠ JsonValue.null →
      jLookup (encodeBlog b) "can_subscribe" = some v)
    ∧ (∀ v, jLookup kvs "description" = some v → v ≠ JsonValue.null →
      jLookup (encodeBlog b) "description" = some v)
    ∧ (∀ v, jLookup kvs "followed" = some v → v ≠ JsonValue.null →
      jLookup (encodeBlog b) "followed" = some v)
    ∧ (∀ v, jLookup kvs "is_blocked_from_primary" = some v → v ≠ JsonValue.null →
      jLookup (encodeBlog b) "is_blocked_from_primary" = some v)
    ∧ (∀ v, jLookup kvs "is_nsfw" = some v → v ≠ JsonValue.null →
      jLookup (encodeBlog b) "is_nsfw" = some v)
    ∧ (∀ v, jLookup kvs "share_likes" = some v → v ≠ JsonValue.null →
      jLookup (encodeBlog b) "share_likes" = some v)
    ∧ (∀ v, jLookup kvs "submission_page_title" = some v → v ≠ JsonValue.null →
      jLookup (encodeBlog b) "submission_page_title" = some v)
    ∧ (∀ v, jLookup kvs "subscribed" = some v → v ≠ JsonValue.null →
      jLookup (encodeBlog b) "subscribed" = some v)
    ∧ (∀ v, jLookup kvs "total_posts" = some v → v ≠ JsonValue.null →
      jLookup (encodeBlog b) "total_posts" = some v)
    ∧ (∀ v, jLookup kvs "updated" = some v → v ≠ JsonValue.null →
      jLookup (encodeBlog b) "updated" = some v)
    ∧ (∀ v, jLookup kvs "uuid" = some v → v ≠ JsonValue.null →
      jLookup (encodeBlog b) "uuid" = some v) := by
  unfold decodeBlog at h
  obtain ⟨name, hname, h⟩ := bind_ok_elim h
  obtain ⟨url, hurl, h⟩ := bind_ok_elim h
  obtain ⟨title, htitle, h⟩ := bind_ok_elim h
  obtain ⟨posts, hposts, h⟩ := bind_ok_elim h
  obtain ⟨ask, hask, h⟩ := bind_ok_elim h
  obtain ⟨askAnon, haskAnon, h⟩ := bind_ok_elim h
  obtain ⟨askPageTitle, haskPageTitle, h⟩ := bind_ok_elim h
  obtain ⟨canSendFanMail, hcanSendFanMail, h⟩ := bind_ok_elim h
  obtain ⟨canSubmit, hcanSubmit, h⟩ := bind_ok_elim h
  obtain ⟨canSubscribe, hcanSubscribe, h⟩ := bind_ok_elim h
  obtain ⟨description, hdescription, h⟩ := bind_ok_elim h
  obtain ⟨followed, hfollowed, h⟩ := bind_ok_elim h
  obtain ⟨isBlockedFromPrimary, hisBlockedFromPrimary, h⟩ := bind_ok_elim h
  obtain ⟨isNSFW, hisNSFW, h⟩ := bind_ok_elim h
  obtain ⟨shareLikes, hshareLikes, h⟩ := bind_ok_elim h
  obtain ⟨submissionPageTitle, hsubmissionPageTitle, h⟩ := bind_ok_elim h
  obtain ⟨subscribed, hsubscribed, h⟩ := bind_ok_elim h
  obtain ⟨totalPosts, htotalPosts, h⟩ := bind_ok_elim h
  obtain ⟨updated, hupdated, h⟩ := bind_ok_elim h
  obtain ⟨uuid, huuid, h⟩ := bind_ok_elim h
  simp only [pure, Except.pure, Except.ok.injEq] at h
  subst h
  refine ⟨?_, ?_, ?_, ?_, ?_, ?_, ?_, ?_, ?_, ?_, ?_, ?_, ?_, ?_, ?_, ?_,
          ?_, ?_, ?_, ?_⟩
  · intro v hv hn
    rw [getString_reproduces hname v hv hn]; rfl
  · intro v hv hn
    rw [getString_reproduces hurl v hv hn]; rfl
  · intro v hv hn
    rw [getString_reproduces htitle v hv hn]; rfl
  · intro v hv hn
    rw [getInt_reproduces hposts v hv hn]; rfl
  · intro v hv hn
    rw [getBool_reproduces hask v hv hn]; rfl
  · intro v hv hn
    rw [getBool_reproduces haskAnon v hv hn]; rfl
  · intro v hv hn
    rw [getString_reproduces haskPageTitle v hv hn]; rfl
  · intro v hv hn
    rw [getBool_reproduces hcanSendFanMail v hv hn]; rfl
  · intro v hv hn
    rw [getBool_reproduces hcanSubmit v hv hn]; rfl
  · intro v hv hn
    rw [getBool_reproduces hcanSubscribe v hv hn]; rfl
  · intro v hv hn
    rw [getString_reproduces hdescription v hv hn]; rfl
  · intro v hv hn
    rw [getBool_reproduces hfollowed v hv hn]; rfl
  · intro v hv hn
    rw [getBool_reproduces hisBlockedFromPrimary v hv hn]; rfl
  · intro v hv hn
    rw [getBool_reproduces hisNSFW v hv hn]; rfl
  · intro v hv hn
    rw [getBool_reproduces hshareLikes v hv hn]; rfl
  · intro v hv hn
    rw [getString_reproduces hsubmissionPageTitle v hv hn]; rfl
  · intro v hv hn
    rw [getBool_reproduces hsubscribed v hv hn]; rfl
  · intro v hv hn
    rw [getInt_reproduces htotalPosts v hv hn]; rfl
  · intro v hv hn
    rw [getInt_reproduces hupdated v hv hn]; rfl
  · intro v hv hn
    rw [getString_reproduces huuid v hv hn]; rfl

/-- A concrete blog-info object used to evaluate the round-trip. -/
def sampleBlogKvs : List (String × JsonValue) :=
  [("name", .str "foo"), ("posts", .num 7), ("ask", .bool true),
   ("junk", .arr []), ("uuid", .str "t:abc")]

/-- The `Blog` the sample object decodes to. -/
def sampleBlog : Blog :=
  { client := none, Name := "foo", Url := "", Title := "", Posts := 7,
    Ask := true, AskAnon := false, AskAnonPageTitle := "",
    CanSendFanMail := false, CanSubmit := false, CanSubscribe := false,
    Description := "", Followed := false, IsBlockedFromPrimary := false,
    IsNSFW := false, ShareLikes := false, SubmissionPageTitle := "",
    Subscribed := false, TotalPosts := 0, Updated := 0, UUID := "t:abc" }

/-- C8 witness: the sample object decodes successfully and its populated
`name`, `posts`, `ask` and `uuid` values reappear in the re-encoding. -/
theorem blog_decode_encode_roundtrip_witness :
    (jLookup (encodeBlog sampleBlog) "name" = some (.str "foo"))
    ∧ (jLookup (encodeBlog sampleBlog) "posts" = some (.num 7))
    ∧ (jLookup (encodeBlog sampleBlog) "ask" = some (.bool true))
    ∧ (jLookup (encodeBlog sampleBlog) "uuid" = some (.str "t:abc")) :=
  ⟨(blog_decode_encode_roundtrip sampleBlogKvs sampleBlog rfl).1 _ rfl
     (fun hx => JsonValue.noConfusion hx),
   (blog_decode_encode_roundtrip sampleBlogKvs sampleBlog rfl).2.2.2.1 _ rfl
     (fun hx => JsonValue.noConfusion hx),
   (blog_decode_encode_roundtrip sampleBlogKvs sampleBlog rfl).2.2.2.2.1 _ rfl
     (fun hx => JsonValue.noConfusion hx),
   (blog_decode_encode_roundtrip sampleBlogKvs sampleBlog
      rfl).2.2.2.2.2.2.2.2.2.2.2.2.2.2.2.2.2.2.2 _ rfl
     (fun hx => JsonValue.noConfusion hx)⟩

/-- The value of one `Post` field, the model of the `interface\x7b\x7d`
carried by the `reflect.Value` that `GetProperty` returns. -/
inductive PostFieldValue where
  | postRef (r : PostRef)
  | miniPost (m : MiniPost)
  | clientVal (c : Option ClientInterface)
  | uint (n : Nat)
  | str (s : String)
  | boolVal (b : Bool)
  | jsonList (l : List JsonValue)
  | noteList (l : List Note)
  | strList (l : List String)
  | reblog (r : ReblogInfo)
  | contentList (l : List NpfContent)
  | trailList (l : List NpfTrail)

/-- The field table of `Post` as `reflect.TypeOf(p).Elem().FieldByName`
sees it: the declared fields of `Post` (the embedded `PostRef` is itself
a field), plus the fields promoted from the embedded `PostRef` (its
`MiniPost` and unexported `client`) and from `MiniPost` (`Id`, `Type`,
`BlogName`, `ReblogKey`); `reflect` finds unexported and embedded names
alike. -/
def postFields (p : Post) : List (String × PostFieldValue) :=
  [("PostRef", .postRef p.toPostRef),
   ("MiniPost", .miniPost p.toPostRef.toMiniPost),
   ("client", .clientVal p.toPostRef.client),
   ("Id", .uint p.toPostRef.toMiniPost.Id),
   ("Type", .str p.toPostRef.toMiniPost.Type'),
   ("BlogName", .str p.toPostRef.toMiniPost.BlogName),
   ("ReblogKey", .str p.toPostRef.toMiniPost.ReblogKey),
   ("Body", .str p.Body),
   ("CanLike", .boolVal p.CanLike),
   ("CanReblog", .boolVal p.CanReblog),
   ("CanReply", .boolVal p.CanReply),
   ("CanSendInMessage", .boolVal p.CanSendInMessage),
   ("Caption", .str p.Caption),
   ("Date", .str p.Date),
   ("DisplayAvatar", .boolVal p.DisplayAvatar),
   ("Followed", .boolVal p.Followed),
   ("Format", .str p.Format),
   ("Highlighted", .jsonList p.Highlighted),
   ("Liked", .boolVal p.Liked),
   ("NoteCount", .uint p.NoteCount),
   ("PermalinkUrl", .str p.PermalinkUrl),
   ("PostUrl", .str p.PostUrl),
   ("Reblog", .reblog p.Reblog),
   ("Notes", .noteList p.Notes),
   ("RecommendedColor", .str p.RecommendedColor),
   ("RecommendedSource", .boolVal p.RecommendedSource),
   ("ShortUrl", .str p.ShortUrl),
   ("Slug", .str p.Slug),
   ("SourceTitle", .str p.SourceTitle),
   ("SourceUrl", .str p.SourceUrl),
   ("State", .str p.State),
   ("Summary", .str p.Summary),
   ("Tags", .strList p.Tags),
   ("Timestamp", .uint p.Timestamp),
   ("FeaturedTimestamp", .uint p.FeaturedTimestamp),
   ("TrackName", .str p.TrackName),
   ("Content", .contentList p.Content),
   ("Trail", .trailList p.Trail)]

/-- The field names of `Post` reachable by `FieldByName`. -/
def postFieldNames : List String :=
  ["PostRef", "MiniPost", "client", "Id", "Type", "BlogName", "ReblogKey",
   "Body", "CanLike", "CanReblog", "CanReply", "CanSendInMessage",
   "Caption", "Date", "DisplayAvatar", "Followed", "Format", "Highlighted",
   "Liked", "NoteCount", "PermalinkUrl", "PostUrl", "Reblog", "Notes",
   "RecommendedColor", "RecommendedSource", "ShortUrl", "Slug",
   "SourceTitle", "SourceUrl", "State", "Summary", "Tags", "Timestamp",
   "FeaturedTimestamp", "TrackName", "Content", "Trail"]

/-- `Post.GetProperty` from `post.go`: dynamic field lookup by name via
reflection; an unknown name yields the `Property ... does not exist`
error (the `FieldNotFoundError`).  The Go code returns the
`reflect.Value` wrapping the field; the model returns the wrapped field
value. -/
def Post.GetProperty (p : Post) (key : String) :
    Except GoError PostFieldValue :=
  match (postFields p).find? (fun q => q.1 == key) with
  | some q => .ok q.2
  | none => .error (.msg ("Property " ++ key ++ " does not exist"))

/-- The keys of the field table are exactly `postFieldNames`, for every
post. -/
theorem postFields_keys (p : Post) :
    (postFields p).map Prod.fst = postFieldNames := rfl

/-- C9: `GetProperty` succeeds with the field's value exactly on the
field names of `Post` and fails with the field-not-found error on every
other name. -/
theorem getProperty_field_lookup (p : Post) (key : String) :
    (key ∈ postFieldNames → ∃ v, Post.GetProperty p key = .ok v)
    ∧ (key ∉ postFieldNames →
      Post.GetProperty p key =
        .error (.msg ("Property " ++ key ++ " does not exist"))) := by
  constructor
  · intro hk
    rw [← postFields_keys p] at hk
    obtain ⟨q, hq, hfst⟩ := List.mem_map.mp hk
    have hex : ∃ x, (postFields p).find? (fun q => q.1 == key) = some x := by
      rw [← Option.isSome_iff_exists, List.find?_isSome]
      exact ⟨q, hq, by simp [hfst]⟩
    obtain ⟨x, hx⟩ := hex
    exact ⟨x.2, by simp [Post.GetProperty, hx]⟩
  · intro hk
    have hnone : (postFields p).find? (fun q => q.1 == key) = none := by
      rw [List.find?_eq_none]
      intro x hx hbeq
      apply hk
      have hxk : x.1 = key := by simpa using hbeq
      rw [← hxk, ← postFields_keys p]
      exact List.mem_map_of_mem Prod.fst hx
    simp [Post.GetProperty, hnone]

/-- C9 witness: lookup of the existing field `Body` succeeds and lookup
of the non-field `Banana` fails with the field-not-found error, on the
zero post. -/
theorem getProperty_field_lookup_witness :
    (∃ v, Post.GetProperty default "Body" = .ok v)
    ∧ Post.GetProperty default "Banana" =
        .error (.msg ("Property " ++ "Banana" ++ " does not exist")) :=
  ⟨(getProperty_field_lookup default "Body").1 (by decide),
   (getProperty_field_lookup default "Banana").2 (by decide)⟩
